import Mathlib

/-!
# evidence-paste: the static file server bootstrap (`src/main.go`)

The repository is one Go function, `main`.  It is embedded here as a program
over an explicit process state: every call that `main` makes into the Go
standard library appends an event to the trace of the process, and a call
that ends the process (`os.Exit`, a run-time panic, a listener that never
returns) halts the remaining statements.

Go strings are modelled by `String`; all `main` does with them is index the
argument vector, concatenate, and substitute one `%s` operand.
-/

namespace EvidencePaste

/-! ## Values -/

/-- A value of Go's `error` interface: `nil`, or an error with the text its `Error()` gives. -/
inductive GoError where
  | nil
  | err (text : String)
  deriving DecidableEq, Repr

/-- The type `http.FileSystem`, of which `main` builds one value, `http.Dir(".")`. -/
inductive FileSystem where
  | Dir (root : String)
  deriving DecidableEq, Repr

/-- The type `http.Handler`, of which `main` builds one value, `http.FileServer(fs)`. -/
inductive Handler where
  | FileServer (fs : FileSystem)
  deriving DecidableEq, Repr

/-- A routing table: the patterns registered on a `ServeMux`, oldest first. -/
abbrev Routes := List (String × Handler)

/-! ## Process state and control -/

/-- The calls into the standard library that are visible from outside the process. -/
inductive Event where
  /-- The call `http.Handle(pattern, handler)` registered a handler. -/
  | handle (pattern : String) (handler : Handler)
  /-- The call `log.Printf` handed this text to the standard logger. -/
  | printf (text : String)
  /-- The call `http.ListenAndServe` was started on this address with this routing table. -/
  | listen (addr : String) (routes : Routes)
  /-- The call `log.Fatal` handed this text to the standard logger. -/
  | fatal (text : String)
  /-- The call `os.Exit(code)` ended the process. -/
  | exit (code : Nat)
  deriving DecidableEq, Repr

/-- The state of the process: the registrations of `http.DefaultServeMux` and the trace so far. -/
structure Proc where
  mux : Routes
  events : List Event
  deriving DecidableEq, Repr

/-- The state in which `main` is entered: nothing registered, nothing done. -/
def Proc.init : Proc := ⟨[], []⟩

/-- The ways in which the statements of `main` stop being executed. -/
inductive Halt where
  /-- The call `os.Exit(code)`. -/
  | exit (code : Nat)
  /-- A run-time panic that nothing recovers. -/
  | panic
  /-- A call that never returns: the listener serving until the process is killed. -/
  | blocked
  deriving DecidableEq, Repr

/-- The result of running a piece of Go code from a state. -/
inductive Step (α : Type) where
  | next (value : α) (proc : Proc)
  | halt (how : Halt) (proc : Proc)
  deriving Repr

/-- Go code with a result of type `α`. -/
def Go (α : Type) : Type := Proc → Step α

instance : Monad Go where
  pure a := fun s => Step.next a s
  bind m f := fun s =>
    match m s with
    | Step.next a s1 => f a s1
    | Step.halt h s1 => Step.halt h s1

/-- The state a run stopped in. -/
def Step.proc {α : Type} : Step α → Proc
  | Step.next _ s => s
  | Step.halt _ s => s

/-- Append one event to the trace. -/
def emit (e : Event) : Go Unit :=
  fun s => Step.next () { s with events := s.events ++ [e] }

/-- Stop executing. -/
def halt {α : Type} (h : Halt) : Go α :=
  fun s => Step.halt h s

/-- What the listener does once started: it serves for ever, or it returns an error. -/
inductive ListenResult where
  | blocks
  | returns (e : GoError)
  deriving DecidableEq, Repr

/-- The environment of the process: what `http.ListenAndServe` does for an address and a
routing table (a free port, a port in use, a malformed port, ...). -/
structure Env where
  listen : String → Routes → ListenResult

/-! ## The library calls of `main` -/

/-- The index expression `xs[i]` of Go: a run-time panic when `i` is out of range. -/
def index (xs : List String) (i : Nat) : Go String :=
  match xs[i]? with
  | some x => pure x
  | none => halt Halt.panic

/-- The scanning loop of `fmt.Sprintf` on the fragment that `main` uses: plain text, the verb
`%s` with a string operand, and `%%`.  The flag says that the previous character was an
unfinished `%`.  Anything else (another verb, a missing or a left-over operand) is `none`. -/
def fmt.scan : Bool → List Char → List String → Option (List Char)
  | false, [], [] => some []
  | false, [], _ :: _ => none
  | true, [], _ => none
  | false, c :: rest, args =>
    if c = '%' then fmt.scan true rest args
    else (fmt.scan false rest args).map (fun out => c :: out)
  | true, c :: rest, args =>
    if c = '%' then (fmt.scan false rest args).map (fun out => '%' :: out)
    else if c = 's' then
      match args with
      | a :: more => (fmt.scan false rest more).map (fun out => a.data ++ out)
      | [] => none
    else none

/-- The function `fmt.Sprintf(format, args...)` with string operands. -/
def fmt.Sprintf (format : String) (args : List String) : Option String :=
  (fmt.scan false format.data args).map String.mk

/-- The function `fmt.Sprint(err)` for one operand of type `error`. -/
def fmt.Sprint : GoError → String
  | GoError.nil => "<nil>"
  | GoError.err text => text

/-- The function `os.Exit(code)`: the process ends with this status. -/
def os.Exit {α : Type} (code : Nat) : Go α := do
  emit (Event.exit code)
  halt (Halt.exit code)

/-- The function `log.Printf(format, args...)`: the formatted text goes to the standard
logger.  (A format outside the modelled fragment stops the run as a panic.) -/
def log.Printf (format : String) (args : List String) : Go Unit :=
  match fmt.Sprintf format args with
  | some text => emit (Event.printf text)
  | none => halt Halt.panic

/-- The function `log.Fatal(err)`: `Print(err)` followed by `os.Exit(1)`. -/
def log.Fatal (err : GoError) : Go Unit := do
  emit (Event.fatal (fmt.Sprint err))
  os.Exit 1

/-- The constructor `http.Dir(root)`. -/
def http.Dir (root : String) : FileSystem := FileSystem.Dir root

/-- The constructor `http.FileServer(fs)`. -/
def http.FileServer (fs : FileSystem) : Handler := Handler.FileServer fs

/-- The function `http.Handle(pattern, handler)`: register on `http.DefaultServeMux`; a panic
for the empty pattern and for a pattern that is registered already. -/
def http.Handle (pattern : String) (handler : Handler) : Go Unit :=
  fun s =>
    if pattern = "" ∨ pattern ∈ s.mux.map Prod.fst then Step.halt Halt.panic s
    else Step.next () ⟨s.mux ++ [(pattern, handler)], s.events ++ [Event.handle pattern handler]⟩

/-- The function `http.ListenAndServe(addr, handler)`: a nil handler stands for
`http.DefaultServeMux`.  The call returns only with an error. -/
def http.ListenAndServe (env : Env) (addr : String) (handler : Option Routes) : Go GoError :=
  fun s =>
    let routes := handler.getD s.mux
    let s1 : Proc := { s with events := s.events ++ [Event.listen addr routes] }
    match env.listen addr routes with
    | ListenResult.blocks => Step.halt Halt.blocked s1
    | ListenResult.returns e => Step.next e s1

/-! ## The program -/

/-- Lines 11 to 14 of `main`: the value of the local variable `port` after the `if`. -/
def main.port (osArgs : List String) : Go String := do
  let mut port := "8000"
  if osArgs.length > 1 then
    port ← index osArgs 1
  return port

/-- The function `main` of `src/main.go`, run with the argument vector `os.Args`. -/
def main (env : Env) (osArgs : List String) : Go Unit := do
  let port ← main.port osArgs
  http.Handle "/" (http.FileServer (http.Dir "."))
  let addr := ":" ++ port
  log.Printf "Starting server on http://localhost%s\n" [addr]
  log.Fatal (← http.ListenAndServe env addr none)

/-- Run `main` in a fresh process. -/
def run (env : Env) (osArgs : List String) : Step Unit :=
  main env osArgs Proc.init

/-! ## Observations of a run -/

/-- The exit status of the process: 0 when `main` returns, the argument of `os.Exit`, 2 after
a panic, and none while the process is still serving. -/
def exitStatus : Step Unit → Option Nat
  | Step.next _ _ => some 0
  | Step.halt (Halt.exit code) _ => some code
  | Step.halt Halt.panic _ => some 2
  | Step.halt Halt.blocked _ => none

/-- The value of `port` that `main` computes, if it gets that far. -/
def portOf (osArgs : List String) : Option String :=
  match main.port osArgs Proc.init with
  | Step.next p _ => some p
  | Step.halt _ _ => none

/-- The addresses handed to `http.ListenAndServe`, in order. -/
def listenAddrs : List Event → List String
  | [] => []
  | Event.listen addr _ :: es => addr :: listenAddrs es
  | _ :: es => listenAddrs es

/-- The texts logged through `log.Printf`, in order. -/
def printfTexts : List Event → List String
  | [] => []
  | Event.printf text :: es => text :: printfTexts es
  | _ :: es => printfTexts es

/-- The texts logged through `log.Fatal`, in order. -/
def fatalTexts : List Event → List String
  | [] => []
  | Event.fatal text :: es => text :: fatalTexts es
  | _ :: es => fatalTexts es

/-- The trace of a run of `main`. -/
def trace (env : Env) (osArgs : List String) : List Event :=
  (run env osArgs).proc.events

/-- The routing table that `main` leaves in `http.DefaultServeMux`. -/
def mainRoutes : Routes := [("/", http.FileServer (http.Dir "."))]

/-- The text of the start-up message for a port. -/
def startupText (port : String) : String :=
  "Starting server on http://localhost:" ++ port ++ "\n"

/-- The port that the argument vector selects: the second entry, or the default. -/
def selected (osArgs : List String) : String :=
  (osArgs[1]?).getD "8000"

/-- The trace of `main` up to and including the start of the listener. -/
def startup (port : String) : List Event :=
  [Event.handle "/" (http.FileServer (http.Dir ".")),
   Event.printf (startupText port),
   Event.listen (":" ++ port) mainRoutes]

/-- The trace of `main` after the listener was started, by what the listener did. -/
def afterListen : ListenResult → List Event
  | ListenResult.blocks => []
  | ListenResult.returns e => [Event.fatal (fmt.Sprint e), Event.exit 1]

/-- An environment in which every port is taken: binding fails at once. -/
def Env.portInUse : Env :=
  ⟨fun addr _ => ListenResult.returns
    (GoError.err ("listen tcp " ++ addr ++ ": bind: address already in use"))⟩

/-- An environment in which every port is free: the listener serves for ever. -/
def Env.portFree : Env :=
  ⟨fun _ _ => ListenResult.blocks⟩

/-! ## The closed form of a run -/

theorem sprintf_startup (a : String) :
    fmt.Sprintf "Starting server on http://localhost%s\n" [a]
      = some ("Starting server on http://localhost" ++ a ++ "\n") := by
  simp only [fmt.Sprintf, Option.map_eq_some']
  refine ⟨("Starting server on http://localhost" ++ a ++ "\n").data, ?_, rfl⟩
  simp [fmt.scan, String.data_append]

theorem startupText_eq (port : String) :
    "Starting server on http://localhost" ++ (":" ++ port) ++ "\n" = startupText port := by
  unfold startupText
  apply String.ext
  simp [String.data_append]

theorem port_run (osArgs : List String) (s : Proc) :
    main.port osArgs s = Step.next (selected osArgs) s := by
  unfold main.port selected index
  rcases osArgs with _ | ⟨a, _ | ⟨b, rest⟩⟩ <;> simp [bind, pure, halt]

theorem run_eq (env : Env) (osArgs : List String) :
    run env osArgs =
      match env.listen (":" ++ selected osArgs) mainRoutes with
      | ListenResult.blocks =>
        Step.halt Halt.blocked ⟨mainRoutes, startup (selected osArgs)⟩
      | ListenResult.returns e =>
        Step.halt (Halt.exit 1)
          ⟨mainRoutes, startup (selected osArgs) ++ [Event.fatal (fmt.Sprint e), Event.exit 1]⟩ := by
  unfold run main
  simp only [bind, port_run, log.Printf, sprintf_startup, startupText_eq]
  simp [http.Handle, Proc.init, emit, http.ListenAndServe, mainRoutes, startup]
  cases h : env.listen (":" ++ selected osArgs) [("/", http.FileServer (http.Dir "."))] <;>
    simp [log.Fatal, os.Exit, emit, halt, bind]

theorem trace_eq (env : Env) (osArgs : List String) :
    trace env osArgs =
      startup (selected osArgs) ++ afterListen (env.listen (":" ++ selected osArgs) mainRoutes) := by
  unfold trace
  rw [run_eq]
  cases env.listen (":" ++ selected osArgs) mainRoutes <;> simp [Step.proc, afterListen]

theorem exitStatus_run (env : Env) (osArgs : List String) :
    exitStatus (run env osArgs) =
      match env.listen (":" ++ selected osArgs) mainRoutes with
      | ListenResult.blocks => none
      | ListenResult.returns _ => some 1 := by
  rw [run_eq]
  cases env.listen (":" ++ selected osArgs) mainRoutes <;> simp [exitStatus]

theorem portOf_eq (osArgs : List String) : portOf osArgs = some (selected osArgs) := by
  simp [portOf, port_run]

theorem listenAddrs_trace (env : Env) (osArgs : List String) :
    listenAddrs (trace env osArgs) = [":" ++ selected osArgs] := by
  rw [trace_eq]
  cases env.listen (":" ++ selected osArgs) mainRoutes <;>
    simp [startup, afterListen, listenAddrs]

theorem printfTexts_trace (env : Env) (osArgs : List String) :
    printfTexts (trace env osArgs) = [startupText (selected osArgs)] := by
  rw [trace_eq]
  cases env.listen (":" ++ selected osArgs) mainRoutes <;>
    simp [startup, afterListen, printfTexts]

theorem selected_eq_dite (osArgs : List String) :
    selected osArgs = if h : 1 < osArgs.length then osArgs[1] else "8000" := by
  unfold selected
  split
  · rename_i h
    simp [List.getElem?_eq_getElem h]
  · rename_i h
    simp [List.getElem?_eq_none (Nat.le_of_not_lt h)]

/-! ## The claims -/

/-- C1: for every argument vector, the port that `main` computes is the entry `os.Args[1]`
when the vector has more than one entry and the literal "8000" otherwise, the listener is
started on ":" followed by that port, and with no argument after the program name (or with
no entry at all) the listen address is ":8000". -/
theorem main_port_selection (env : Env) (osArgs : List String) :
    portOf osArgs = some (if h : 1 < osArgs.length then osArgs[1] else "8000")
    ∧ listenAddrs (trace env osArgs)
        = [":" ++ (if h : 1 < osArgs.length then osArgs[1] else "8000")]
    ∧ (∀ prog : String, portOf [prog] = some "8000"
        ∧ listenAddrs (trace env [prog]) = [":8000"])
    ∧ portOf [] = some "8000" ∧ listenAddrs (trace env []) = [":8000"] := by
  refine ⟨?_, ?_, ?_, ?_, ?_⟩
  · rw [portOf_eq, selected_eq_dite]
  · rw [listenAddrs_trace, selected_eq_dite]
  · intro prog
    constructor
    · rw [portOf_eq]; rfl
    · rw [listenAddrs_trace]; rfl
  · rw [portOf_eq]; rfl
  · rw [listenAddrs_trace]; rfl

/-- C2: when the first command-line argument is the string `p`, whatever it is, the one
address handed to the listener is ":" followed by `p`, and the one message logged through
`log.Printf` is "Starting server on http://localhost:" followed by `p` and a newline, which
contains "http://localhost:" followed by `p`. -/
theorem listen_addr_and_startup_text (env : Env) (osArgs : List String) (p : String)
    (h : osArgs[1]? = some p) :
    portOf osArgs = some p
    ∧ listenAddrs (trace env osArgs) = [":" ++ p]
    ∧ printfTexts (trace env osArgs) = ["Starting server on http://localhost:" ++ p ++ "\n"]
    ∧ ∃ before after : String,
        printfTexts (trace env osArgs) = [before ++ ("http://localhost:" ++ p) ++ after] := by
  have hsel : selected osArgs = p := by simp [selected, h]
  refine ⟨?_, ?_, ?_, "Starting server on ", "\n", ?_⟩
  · rw [portOf_eq, hsel]
  · rw [listenAddrs_trace, hsel]
  · rw [printfTexts_trace, hsel]; rfl
  · rw [printfTexts_trace, hsel]
    congr 1

/-- Witness of C2 at the argument vector `evidence-paste 8080` with every port taken. -/
theorem listen_addr_and_startup_text_witness :
    ["evidence-paste", "8080"][1]? = some "8080"
    ∧ portOf ["evidence-paste", "8080"] = some "8080"
    ∧ listenAddrs (trace Env.portInUse ["evidence-paste", "8080"]) = [":" ++ "8080"]
    ∧ printfTexts (trace Env.portInUse ["evidence-paste", "8080"])
        = ["Starting server on http://localhost:" ++ "8080" ++ "\n"]
    ∧ ∃ before after : String,
        printfTexts (trace Env.portInUse ["evidence-paste", "8080"])
          = [before ++ ("http://localhost:" ++ "8080") ++ after] :=
  ⟨rfl, listen_addr_and_startup_text Env.portInUse ["evidence-paste", "8080"] "8080" rfl⟩

/-- C3: when the listener start call returns the error `e`, `main` logs `e` through
`log.Fatal` and then ends the process with status 1 (these are the last two events of the
trace); the listener was started exactly once; and in no environment does a run of `main`
end with status 0. -/
theorem listener_failure_is_fatal (env : Env) (osArgs : List String) (e : GoError)
    (h : env.listen (":" ++ selected osArgs) mainRoutes = ListenResult.returns e) :
    exitStatus (run env osArgs) = some 1
    ∧ fatalTexts (trace env osArgs) = [fmt.Sprint e]
    ∧ (∃ before : List Event, listenAddrs before = [":" ++ selected osArgs]
        ∧ trace env osArgs = before ++ [Event.fatal (fmt.Sprint e), Event.exit 1])
    ∧ (listenAddrs (trace env osArgs)).length = 1
    ∧ ∀ (env2 : Env) (osArgs2 : List String), exitStatus (run env2 osArgs2) ≠ some 0 := by
  refine ⟨?_, ?_, ⟨startup (selected osArgs), ?_, ?_⟩, ?_, ?_⟩
  · rw [exitStatus_run, h]
  · rw [trace_eq, h]; simp [startup, afterListen, fatalTexts]
  · simp [startup, listenAddrs]
  · rw [trace_eq, h]; rfl
  · rw [listenAddrs_trace]; rfl
  · intro env2 osArgs2
    rw [exitStatus_run]
    cases env2.listen (":" ++ selected osArgs2) mainRoutes <;> simp

/-- Witness of C3 at the argument vector `evidence-paste` with port 8000 taken. -/
theorem listener_failure_is_fatal_witness :
    Env.portInUse.listen (":" ++ selected ["evidence-paste"]) mainRoutes
      = ListenResult.returns (GoError.err "listen tcp :8000: bind: address already in use")
    ∧ exitStatus (run Env.portInUse ["evidence-paste"]) = some 1
    ∧ fatalTexts (trace Env.portInUse ["evidence-paste"])
        = [fmt.Sprint (GoError.err "listen tcp :8000: bind: address already in use")] :=
  have h := listener_failure_is_fatal Env.portInUse ["evidence-paste"]
    (GoError.err "listen tcp :8000: bind: address already in use") (by decide)
  ⟨by decide, h.1, h.2.1⟩

/-- C7: for every argument vector and every environment, the trace of `main` starts with the
registration of the file server at "/", then the start-up message, then the start of the
listener; what follows is nothing (the listener serves) or the fatal log of the listener's
error and the exit; so the start-up message is logged exactly once, and no fatal log comes
among the first three events. -/
theorem startup_order (env : Env) (osArgs : List String) :
    (trace env osArgs).take 3
        = [Event.handle "/" (http.FileServer (http.Dir ".")),
           Event.printf ("Starting server on http://localhost:" ++ selected osArgs ++ "\n"),
           Event.listen (":" ++ selected osArgs) [("/", http.FileServer (http.Dir "."))]]
    ∧ (trace env osArgs).drop 3
        = (match env.listen (":" ++ selected osArgs) mainRoutes with
           | ListenResult.blocks => []
           | ListenResult.returns e => [Event.fatal (fmt.Sprint e), Event.exit 1])
    ∧ printfTexts (trace env osArgs)
        = ["Starting server on http://localhost:" ++ selected osArgs ++ "\n"]
    ∧ fatalTexts ((trace env osArgs).take 3) = [] := by
  rw [trace_eq]
  cases env.listen (":" ++ selected osArgs) mainRoutes <;>
    simp [startup, afterListen, printfTexts, fatalTexts, startupText, mainRoutes]

/-- C8: two argument vectors that agree on the entry `os.Args[1]` (both lack it, or both have
the same one) give the same port, the same listen address and the same start-up message,
whatever their other entries and whatever the environments. -/
theorem later_args_ignored (env1 env2 : Env) (args1 args2 : List String)
    (h : args1[1]? = args2[1]?) :
    portOf args1 = portOf args2
    ∧ listenAddrs (trace env1 args1) = listenAddrs (trace env2 args2)
    ∧ printfTexts (trace env1 args1) = printfTexts (trace env2 args2) := by
  have hsel : selected args1 = selected args2 := by simp [selected, h]
  refine ⟨?_, ?_, ?_⟩
  · rw [portOf_eq, portOf_eq, hsel]
  · rw [listenAddrs_trace, listenAddrs_trace, hsel]
  · rw [printfTexts_trace, printfTexts_trace, hsel]

/-- Witness of C8 at `evidence-paste 9090` and `./ep 9090 extra -v`. -/
theorem later_args_ignored_witness :
    ["evidence-paste", "9090"][1]? = ["./ep", "9090", "extra", "-v"][1]?
    ∧ portOf ["evidence-paste", "9090"] = portOf ["./ep", "9090", "extra", "-v"]
    ∧ listenAddrs (trace Env.portFree ["evidence-paste", "9090"])
        = listenAddrs (trace Env.portInUse ["./ep", "9090", "extra", "-v"])
    ∧ printfTexts (trace Env.portFree ["evidence-paste", "9090"])
        = printfTexts (trace Env.portInUse ["./ep", "9090", "extra", "-v"]) :=
  ⟨rfl, later_args_ignored Env.portFree Env.portInUse
    ["evidence-paste", "9090"] ["./ep", "9090", "extra", "-v"] rfl⟩

/-- C9: when the first command-line argument is the empty string, the port is the empty
string and not "8000", the listen address is ":" and the start-up message is
"Starting server on http://localhost:" followed by a newline. -/
theorem empty_first_arg_kept (env : Env) (osArgs : List String)
    (h : osArgs[1]? = some "") :
    portOf osArgs = some ""
    ∧ portOf osArgs ≠ some "8000"
    ∧ listenAddrs (trace env osArgs) = [":"]
    ∧ printfTexts (trace env osArgs) = ["Starting server on http://localhost:\n"] := by
  have hsel : selected osArgs = "" := by simp [selected, h]
  refine ⟨?_, ?_, ?_, ?_⟩
  · rw [portOf_eq, hsel]
  · rw [portOf_eq, hsel]; decide
  · rw [listenAddrs_trace, hsel]; rfl
  · rw [printfTexts_trace, hsel]; rfl

/-- Witness of C9 at the argument vector `evidence-paste ""` with every port free. -/
theorem empty_first_arg_kept_witness :
    ["evidence-paste", ""][1]? = some ""
    ∧ portOf ["evidence-paste", ""] = some ""
    ∧ portOf ["evidence-paste", ""] ≠ some "8000"
    ∧ listenAddrs (trace Env.portFree ["evidence-paste", ""]) = [":"]
    ∧ printfTexts (trace Env.portFree ["evidence-paste", ""])
        = ["Starting server on http://localhost:\n"] :=
  ⟨rfl, empty_first_arg_kept Env.portFree ["evidence-paste", ""] rfl⟩

end EvidencePaste
